import Mathlib

/-
Verification of the gpt-oss-api-server request-forwarding gateway.

The development shallowly embeds the relay core of src/main.py and the
one-shot serverless adapter of src/.history/runpod_handler_20250807024720.py.
Machine behaviour of the two external libraries the code leans on is modelled
from their documented semantics where the source depends on it:
  - starlette HTTPException string form is "<status_code>: <detail>";
  - starlette StreamingResponse fixes its status code at construction
    (default 200) and emits the response-start frame before iterating the
    body generator;
  - Python `x or d` evaluates to d exactly when x is falsy (None, 0, 0.0,
    empty string, False), otherwise to x.
-/

namespace GptOss

/-- ChatMessage from src/main.py lines 41-43: role and content, both required
strings. -/
structure ChatMessage where
  role : String
  content : String
deriving DecidableEq, Repr

/-- ChatCompletionRequest from src/main.py lines 45-53. Optional fields keep
the distinction between an omitted value and an explicitly supplied one. -/
structure ChatCompletionRequest where
  messages : List ChatMessage
  model : String := "gpt-oss-120b"
  max_tokens : Option Int := none
  temperature : Option Rat := none
  stream : Bool := false
  top_p : Rat := 1
  frequency_penalty : Rat := 0
  presence_penalty : Rat := 0
deriving DecidableEq, Repr

/-- Config from src/main.py lines 30-36, at the default environment values. -/
structure Config where
  GPT_OSS_API_URL : String := "http://localhost:8000"
  GPT_OSS_API_KEY : String := ""
  MAX_TOKENS : Int := 2048
  TEMPERATURE : Rat := 7/10
deriving Repr

def config : Config := {}

/-- Python `x or d` on an optional integer: d when x is None or 0, x
otherwise (src/main.py line 155). -/
def pyOrInt (x : Option Int) (d : Int) : Int :=
  match x with
  | none => d
  | some v => if v = 0 then d else v

/-- Python `x or d` on an optional float, modelled over the rationals: d when
x is None or 0.0, x otherwise (src/main.py line 156). -/
def pyOrRat (x : Option Rat) (d : Rat) : Rat :=
  match x with
  | none => d
  | some v => if v = 0 then d else v

/-- The upstream payload (gpt_oss_request) sent to the backend: all sampling
fields resolved, no optional values remain. -/
structure GptOssRequest where
  messages : List ChatMessage
  model : String
  max_tokens : Int
  temperature : Rat
  top_p : Rat
  frequency_penalty : Rat
  presence_penalty : Rat
  stream : Bool
deriving DecidableEq, Repr

/-- Building the upstream payload, src/main.py lines 152-161. max_tokens and
temperature are resolved with Python `or` against the configured defaults. -/
def build_gpt_oss_request (req : ChatCompletionRequest) : GptOssRequest :=
  { messages := req.messages
    model := req.model
    max_tokens := pyOrInt req.max_tokens config.MAX_TOKENS
    temperature := pyOrRat req.temperature config.TEMPERATURE
    top_p := req.top_p
    frequency_penalty := req.frequency_penalty
    presence_penalty := req.presence_penalty
    stream := req.stream }

/-- Result of the buffered upstream POST as observed by the route handler:
either a response with a status code and a text body, or an
httpx.RequestError (connection-level failure: DNS, refused, timeout). -/
inductive UpstreamResult where
  | ok (status : Nat) (body : String)
  | requestError (msg : String)
deriving DecidableEq, Repr

/-- A raised HTTPException: status code and detail. -/
structure HttpError where
  status_code : Nat
  detail : String
deriving DecidableEq, Repr

/-- str(e) for a starlette/fastapi HTTPException: "<status_code>: <detail>". -/
def httpExceptionStr (e : HttpError) : String :=
  toString e.status_code ++ ": " ++ e.detail

/-- What the chat_completions route produces, as observed by its caller:
a passthrough JSON body (buffered 200), a raised HTTPException surfaced by
the framework, or a StreamingResponse object wrapping a not-yet-run
generator closure (recorded by the payload the closure would send). -/
inductive RouteResult where
  | json (body : String)
  | httpError (status : Nat) (detail : String)
  | streamingResponse (payload : GptOssRequest)
deriving DecidableEq, Repr

/-- chat_completions, src/main.py lines 141-229, as a function of the request
and of what the buffered upstream call would return.

Control flow of the source: the whole body sits in a try block whose handlers
are `except httpx.RequestError` (raises HTTPException 503) and
`except Exception` (raises HTTPException 500). An HTTPException raised inside
the try body for a non-200 upstream status is an Exception, so it is caught
by the second handler and rewrapped as a 500 whose detail embeds str of the
original exception. An exception raised inside one except handler propagates
and is not caught by a sibling handler, so the 503 survives as a 503.

When request.stream is true the route returns a StreamingResponse wrapping
the generate_stream closure without touching the upstream; the buffered
upstream argument is ignored on that path. -/
def chat_completions (req : ChatCompletionRequest) (up : UpstreamResult) :
    RouteResult :=
  if req.stream then
    RouteResult.streamingResponse (build_gpt_oss_request req)
  else
    match up with
    | UpstreamResult.requestError msg =>
        RouteResult.httpError 503 ("Failed to connect to GPT-OSS API: " ++ msg)
    | UpstreamResult.ok status body =>
        if status = 200 then
          RouteResult.json body
        else
          RouteResult.httpError 500
            ("Internal server error: " ++
              httpExceptionStr ⟨status, "GPT-OSS API error: " ++ body⟩)

/-- Behaviour of the upstream when opened in streaming mode: either status
200 together with the sequence of text chunks aiter_text yields, or a
non-200 status with an error body. -/
inductive StreamUpstream where
  | ok (chunks : List String)
  | err (status : Nat) (body : String)
deriving DecidableEq, Repr

/-- Observable outcome of running the generate_stream generator to
completion: either it yields a sequence of chunks and finishes, or it fully
reads (drains) the error body and then raises an HTTPException. -/
inductive GenOutcome where
  | yields (chunks : List String)
  | raises (drained : String) (e : HttpError)
deriving DecidableEq, Repr

/-- The chunk loop of generate_stream, src/main.py lines 188-190: for each
chunk from aiter_text, `if chunk:` yields it; an empty string is falsy and
is skipped. -/
def yield_chunks : List String → List String
  | [] => []
  | c :: rest => if c = "" then yield_chunks rest else c :: yield_chunks rest

/-- generate_stream, src/main.py lines 173-190: on a non-200 status the
error body is fully read via aread and an HTTPException carrying the
upstream status is raised; on 200 the chunk loop runs. -/
def generate_stream (up : StreamUpstream) : GenOutcome :=
  match up with
  | StreamUpstream.err status body =>
      GenOutcome.raises body ⟨status, "GPT-OSS API error: " ++ body⟩
  | StreamUpstream.ok chunks =>
      GenOutcome.yields (yield_chunks chunks)

/-- One frame of the HTTP response as seen on the wire by the caller of the
streaming route. -/
inductive StreamEvent where
  | start (status : Nat)
  | chunk (text : String)
  | done
  | aborted (e : HttpError)
deriving DecidableEq, Repr

/-- Wire-level semantics of StreamingResponse (modelled from starlette,
which src/main.py lines 192-196 invoke with the default status code): the
response-start frame with status 200 is sent before the body generator is
first advanced; chunks follow as yielded; an exception raised by the
generator after the start frame aborts the connection instead of changing
the status. -/
def streaming_response_events (gen : GenOutcome) : List StreamEvent :=
  StreamEvent.start 200 ::
    match gen with
    | GenOutcome.yields cs => cs.map StreamEvent.chunk ++ [StreamEvent.done]
    | GenOutcome.raises _ e => [StreamEvent.aborted e]

/-- The full streaming relay: what the caller observes on the wire when the
route runs with request.stream true against a given upstream behaviour. -/
def chat_completions_stream (up : StreamUpstream) : List StreamEvent :=
  streaming_response_events (generate_stream up)

/-- One entry of the raw messages array of the one-shot adapter input, before
defaulting: either field may be absent. -/
structure RawMsg where
  role : Option String := none
  content : Option String := none
deriving DecidableEq, Repr

/-- The input object of the one-shot serverless adapter
(src/.history/runpod_handler_20250807024720.py lines 30-58). A field is
`none` when the key is absent from the input dictionary. -/
structure InputData where
  prompt : Option String := none
  messages : Option (List RawMsg) := none
  model : Option String := none
  max_tokens : Option Int := none
  temperature : Option Rat := none
  stream : Option Bool := none
  top_p : Option Rat := none
  frequency_penalty : Option Rat := none
  presence_penalty : Option Rat := none
deriving DecidableEq, Repr

/-- Message translation of the one-shot adapter, src/.history handler lines
33-47: a present prompt key wins and synthesizes a single user message; else
a present messages key is mapped entrywise with role defaulting to "user"
and content to the empty string; else the descriptive error envelope is
returned. -/
def translate_messages (inp : InputData) : Except String (List ChatMessage) :=
  match inp.prompt with
  | some p => Except.ok [⟨"user", p⟩]
  | none =>
    match inp.messages with
    | some msgs =>
        Except.ok (msgs.map fun m => ⟨m.role.getD "user", m.content.getD ""⟩)
    | none =>
        Except.error
          "Missing required field: either 'prompt' or 'messages' must be provided"

/-- Construction of the ChatCompletionRequest inside the handler, lines
50-59: dict.get with the defaults written in the source; max_tokens and
temperature use plain .get, so an absent key stays None. -/
def build_request (inp : InputData) (msgs : List ChatMessage) :
    ChatCompletionRequest :=
  { messages := msgs
    model := inp.model.getD "gpt-oss-120b"
    max_tokens := inp.max_tokens
    temperature := inp.temperature
    stream := inp.stream.getD false
    top_p := inp.top_p.getD 1
    frequency_penalty := inp.frequency_penalty.getD 0
    presence_penalty := inp.presence_penalty.getD 0 }

/-- What the one-shot adapter returns to its host: the error envelope (a
dictionary with a single error string) or the success envelope carrying the
route result. -/
inductive HandlerOutput where
  | errorEnvelope (msg : String)
  | success (result : RouteResult)
deriving DecidableEq, Repr

/-- One run of the handler: its returned envelope together with whether the
relay (the chat_completions coroutine) was ever invoked during the run. -/
structure HandlerRun where
  output : HandlerOutput
  relayInvoked : Bool
deriving DecidableEq, Repr

/-- handler, src/.history/runpod_handler_20250807024720.py lines 18-87, as a
function of the input, of whether the process-global HTTP client has been
initialized, and of what the buffered upstream call would return. The
missing-field branch returns its envelope before the request is built or the
relay touched. get_http_client raises HTTPException 500 when the client is
uninitialized; that exception, like an HTTPException raised out of
chat_completions, is caught by the blanket except handler and wrapped as a
Handler error envelope using str of the exception. -/
def handler (clientInit : Bool) (inp : InputData) (up : UpstreamResult) :
    HandlerRun :=
  match translate_messages inp with
  | Except.error msg => ⟨HandlerOutput.errorEnvelope msg, false⟩
  | Except.ok msgs =>
    if clientInit then
      match chat_completions (build_request inp msgs) up with
      | RouteResult.httpError st d =>
          ⟨HandlerOutput.errorEnvelope
            ("Handler error: " ++ httpExceptionStr ⟨st, d⟩), true⟩
      | r => ⟨HandlerOutput.success r, true⟩
    else
      ⟨HandlerOutput.errorEnvelope
        ("Handler error: " ++ httpExceptionStr ⟨500, "HTTP client not initialized"⟩),
       false⟩

/-- Whether an envelope carries a live (not yet consumed) StreamingResponse
object as its result. -/
def carriesStreamObject : HandlerOutput → Bool
  | HandlerOutput.success (RouteResult.streamingResponse _) => true
  | _ => false

/-- The raw JSON body of a POST to the server adapter, before pydantic
validation: each field is `none` when the key is absent. -/
structure RawRequest where
  messages : Option (List RawMsg) := none
  model : Option String := none
  max_tokens : Option Int := none
  temperature : Option Rat := none
  stream : Option Bool := none
  top_p : Option Rat := none
  frequency_penalty : Option Rat := none
  presence_penalty : Option Rat := none
deriving DecidableEq, Repr

/-- Pydantic validation of one message entry per ChatMessage in src/main.py
lines 41-43: role and content are both required. -/
def validate_message (m : RawMsg) : Except String ChatMessage :=
  match m.role, m.content with
  | some r, some c => Except.ok ⟨r, c⟩
  | none, _ => Except.error "field required: role"
  | _, none => Except.error "field required: content"

/-- Entrywise validation of the messages array. -/
def validate_message_list : List RawMsg → Except String (List ChatMessage)
  | [] => Except.ok []
  | m :: rest =>
    match validate_message m with
    | Except.error e => Except.error e
    | Except.ok cm =>
      match validate_message_list rest with
      | Except.error e => Except.error e
      | Except.ok cms => Except.ok (cm :: cms)

/-- Pydantic validation of ChatCompletionRequest at the transport boundary,
src/main.py lines 45-53: the messages field is required, each entry needs
role and content, every other field is optional with the written default.
The field declarations place no lower bound on the length of the list. -/
def validate_request (raw : RawRequest) : Except String ChatCompletionRequest :=
  match raw.messages with
  | none => Except.error "field required: messages"
  | some ms =>
    match validate_message_list ms with
    | Except.error e => Except.error e
    | Except.ok cms =>
        Except.ok
          { messages := cms
            model := raw.model.getD "gpt-oss-120b"
            max_tokens := raw.max_tokens
            temperature := raw.temperature
            stream := raw.stream.getD false
            top_p := raw.top_p.getD 1
            frequency_penalty := raw.frequency_penalty.getD 0
            presence_penalty := raw.presence_penalty.getD 0 }

/-- A concrete buffered (stream false) request used in closed evaluations. -/
def sampleRequest : ChatCompletionRequest := { messages := [⟨"user", "Hello"⟩] }

/-- Helper: the chunk loop keeps exactly the nonempty chunks, in order. -/
theorem yield_chunks_eq_filter (l : List String) :
    yield_chunks l = l.filter fun c => decide (c ≠ "") := by
  induction l with
  | nil => rfl
  | cons c rest ih =>
    by_cases hc : c = "" <;> simp [yield_chunks, hc, ih]

/-- C1: the claim says a buffered relay with upstream status S and body E
reaches the caller with status S and a message containing E. On the code,
the HTTPException carrying S raised at src/main.py line 209 is an Exception,
so the blanket handler at line 224 catches it and rewraps it as status 500;
at upstream status 503 with body "Service busy" the caller receives 500
(the message still embeds the body). -/
theorem C1_buffered_upstream_error_rewrapped_to_500 :
    chat_completions sampleRequest (UpstreamResult.ok 503 "Service busy")
      = RouteResult.httpError 500
          "Internal server error: 503: GPT-OSS API error: Service busy" := rfl

/-- C2: the claim says a streaming relay with a non-200 upstream never
reaches the caller as a response that begins as a 200 stream and then
fails. On the code, StreamingResponse fixes status 200 and sends the
response-start frame before the generator runs; the generator then drains
the error body and raises, so at upstream status 503 with body "busy" the
caller observes a started 200 response aborted by the raised exception. -/
theorem C2_stream_error_yields_half_open_200 :
    generate_stream (StreamUpstream.err 503 "busy")
      = GenOutcome.raises "busy" ⟨503, "GPT-OSS API error: busy"⟩
    ∧ chat_completions_stream (StreamUpstream.err 503 "busy")
      = [StreamEvent.start 200,
         StreamEvent.aborted ⟨503, "GPT-OSS API error: busy"⟩] :=
  ⟨rfl, rfl⟩

/-- C3 counterexample: the claim says no chunk, including an empty one, is
dropped; on the upstream chunk sequence ["a", "", "b"] the generator does
not deliver that sequence (the empty chunk is filtered by `if chunk:`). -/
theorem C3_counterexample_empty_chunk_dropped :
    generate_stream (StreamUpstream.ok ["a", "", "b"])
      ≠ GenOutcome.yields ["a", "", "b"] := by decide

/-- C3 amended: for a streaming relay with upstream status 200, the chunks
delivered to the caller are exactly the nonempty upstream chunks, in order
and content; empty chunks are dropped, nothing is merged or reordered. -/
theorem C3_amended_nonempty_chunks_in_order (chunks : List String) :
    generate_stream (StreamUpstream.ok chunks)
      = GenOutcome.yields (chunks.filter fun c => decide (c ≠ "")) := by
  simp [generate_stream, yield_chunks_eq_filter]

/-- C4 counterexample: the claim says an explicitly supplied zero for
max_tokens or temperature is kept in the upstream payload; on a request
carrying max_tokens 0 and temperature 0 the payload carries the configured
defaults instead (Python `or` treats 0 as absent). -/
theorem C4_counterexample_zero_coalesced :
    (build_gpt_oss_request
        { messages := [⟨"user", "Hello"⟩], max_tokens := some 0,
          temperature := some 0 }).max_tokens ≠ 0
    ∧ (build_gpt_oss_request
        { messages := [⟨"user", "Hello"⟩], max_tokens := some 0,
          temperature := some 0 }).temperature ≠ 0 := by
  constructor
  · decide
  · norm_num [build_gpt_oss_request, pyOrRat, config]

/-- C4 amended: the upstream payload resolves max_tokens and temperature to
the supplied values whenever they are present and nonzero, and to the
configured defaults 2048 and 0.7 when absent or when explicitly zero; by
type they are never null in the payload. -/
theorem C4_amended_default_resolution (req : ChatCompletionRequest)
    (v : Int) (t : Rat) :
    ((req.max_tokens = none ∨ req.max_tokens = some 0) →
        (build_gpt_oss_request req).max_tokens = 2048)
    ∧ (req.max_tokens = some v → v ≠ 0 →
        (build_gpt_oss_request req).max_tokens = v)
    ∧ ((req.temperature = none ∨ req.temperature = some 0) →
        (build_gpt_oss_request req).temperature = 7/10)
    ∧ (req.temperature = some t → t ≠ 0 →
        (build_gpt_oss_request req).temperature = t) := by
  refine ⟨?_, ?_, ?_, ?_⟩
  · rintro (h | h) <;> simp [build_gpt_oss_request, pyOrInt, h, config]
  · intro h hv
    simp [build_gpt_oss_request, pyOrInt, h, hv]
  · rintro (h | h) <;> simp [build_gpt_oss_request, pyOrRat, h, config]
  · intro h ht
    simp [build_gpt_oss_request, pyOrRat, h, ht]

/-- C4 witness: at a request supplying max_tokens 5 and omitting
temperature, the payload carries 5 and the default 0.7. -/
theorem C4_amended_default_resolution_witness :
    ((some (5 : Int) = some 5 ∧ (5 : Int) ≠ 0)
      ∧ (none = (none : Option Rat) ∨ (none : Option Rat) = some 0))
    ∧ (build_gpt_oss_request
        { messages := [⟨"user", "Hello"⟩], max_tokens := some 5 }).max_tokens = 5
    ∧ (build_gpt_oss_request
        { messages := [⟨"user", "Hello"⟩], max_tokens := some 5 }).temperature
        = 7/10 :=
  ⟨⟨⟨rfl, by decide⟩, Or.inl rfl⟩,
   (C4_amended_default_resolution
      { messages := [⟨"user", "Hello"⟩], max_tokens := some 5 } 5 0).2.1
      rfl (by decide),
   (C4_amended_default_resolution
      { messages := [⟨"user", "Hello"⟩], max_tokens := some 5 } 5 0).2.2.1
      (Or.inl rfl)⟩

/-- C6: a buffered relay whose upstream call fails at the connection level
(httpx.RequestError: DNS, refused connection, timeout) reaches the caller
as status 503 with the synthesized message naming the failure to connect,
never a raw stack trace, and that response differs from the response
produced for any non-200 status returned by the upstream itself. -/
theorem C6_transport_error_503 (req : ChatCompletionRequest)
    (msg body : String) (st : Nat)
    (hstream : req.stream = false) (_hs : st ≠ 200) :
    chat_completions req (UpstreamResult.requestError msg)
      = RouteResult.httpError 503 ("Failed to connect to GPT-OSS API: " ++ msg)
    ∧ chat_completions req (UpstreamResult.requestError msg)
      ≠ chat_completions req (UpstreamResult.ok st body) := by
  constructor
  · simp [chat_completions, hstream]
  · by_cases h200 : st = 200 <;>
      simp [chat_completions, hstream, h200]

/-- C6 witness: at a connection failure with message "boom" against the
sample request, the caller receives 503 with the connect-failure message,
and that response differs from the one for an upstream 404. -/
theorem C6_transport_error_503_witness :
    (sampleRequest.stream = false ∧ (404 : Nat) ≠ 200)
    ∧ chat_completions sampleRequest (UpstreamResult.requestError "boom")
        = RouteResult.httpError 503 "Failed to connect to GPT-OSS API: boom"
    ∧ chat_completions sampleRequest (UpstreamResult.requestError "boom")
        ≠ chat_completions sampleRequest (UpstreamResult.ok 404 "nf") :=
  ⟨⟨rfl, by decide⟩,
   (C6_transport_error_503 sampleRequest "boom" "nf" 404 rfl (by decide)).1,
   (C6_transport_error_503 sampleRequest "boom" "nf" 404 rfl (by decide)).2⟩

/-- A concrete one-shot input carrying a prompt and stream true. -/
def streamInput : InputData := { prompt := some "hi", stream := some true }

/-- C5 counterexample: the claim says the one-shot adapter with stream true
still runs a buffered relay and never returns a live stream object; on the
input with prompt "hi" and stream true (initialized client, upstream
healthy) the envelope returned by the handler carries the StreamingResponse
object itself. -/
theorem C5_counterexample_envelope_carries_stream :
    carriesStreamObject
      (handler true streamInput (UpstreamResult.ok 200 "ok")).output = true := rfl

/-- C5 amended: when stream true reaches the one-shot adapter and the input
translates successfully, the stream flag is passed through unchanged: the
route returns the StreamingResponse object without performing the buffered
upstream call, the adapter wraps that object in the success envelope, and
the outcome is independent of the buffered upstream result. -/
theorem C5_amended_stream_passthrough (inp : InputData)
    (up up2 : UpstreamResult) (msgs : List ChatMessage)
    (htr : translate_messages inp = Except.ok msgs)
    (hs : inp.stream = some true) :
    (handler true inp up).output
      = HandlerOutput.success
          (RouteResult.streamingResponse
            (build_gpt_oss_request (build_request inp msgs)))
    ∧ handler true inp up = handler true inp up2 := by
  have hstream : (build_request inp msgs).stream = true := by
    simp [build_request, hs]
  constructor <;> simp [handler, htr, chat_completions, hstream]

/-- C5 witness: at the concrete stream-true prompt input, the success
envelope carries the stream object and the outcome ignores the upstream. -/
theorem C5_amended_stream_passthrough_witness :
    (translate_messages streamInput = Except.ok [⟨"user", "hi"⟩]
      ∧ streamInput.stream = some true)
    ∧ (handler true streamInput (UpstreamResult.ok 200 "ok")).output
        = HandlerOutput.success
            (RouteResult.streamingResponse
              (build_gpt_oss_request
                (build_request streamInput [⟨"user", "hi"⟩])))
    ∧ handler true streamInput (UpstreamResult.ok 200 "ok")
        = handler true streamInput (UpstreamResult.requestError "down") :=
  ⟨⟨rfl, rfl⟩,
   (C5_amended_stream_passthrough streamInput (UpstreamResult.ok 200 "ok")
      (UpstreamResult.requestError "down") [⟨"user", "hi"⟩] rfl rfl).1,
   (C5_amended_stream_passthrough streamInput (UpstreamResult.ok 200 "ok")
      (UpstreamResult.requestError "down") [⟨"user", "hi"⟩] rfl rfl).2⟩

/-- C7: a one-shot input with a messages list and no prompt translates to a
message list of the same length and order, where a missing role becomes
"user" and a missing content becomes the empty string. -/
theorem C7_messages_translation (inp : InputData) (msgs : List RawMsg)
    (hp : inp.prompt = none) (hm : inp.messages = some msgs) :
    translate_messages inp
      = Except.ok
          (msgs.map fun m => ChatMessage.mk (m.role.getD "user") (m.content.getD ""))
    ∧ ∀ l, translate_messages inp = Except.ok l → l.length = msgs.length := by
  have h1 : translate_messages inp
      = Except.ok
          (msgs.map fun m =>
            ChatMessage.mk (m.role.getD "user") (m.content.getD "")) := by
    simp [translate_messages, hp, hm]
  refine ⟨h1, fun l hl => ?_⟩
  rw [h1] at hl
  cases hl
  simp

/-- C7 witness: a two-entry messages input, one entry missing content and
the other missing role, translates to the defaulted two-entry list. -/
theorem C7_messages_translation_witness :
    ((InputData.mk none (some [⟨some "system", none⟩, ⟨none, some "hey"⟩])
        none none none none none none none).prompt = none
      ∧ (InputData.mk none (some [⟨some "system", none⟩, ⟨none, some "hey"⟩])
          none none none none none none none).messages
          = some [⟨some "system", none⟩, ⟨none, some "hey"⟩])
    ∧ translate_messages
        (InputData.mk none (some [⟨some "system", none⟩, ⟨none, some "hey"⟩])
          none none none none none none none)
        = Except.ok [⟨"system", ""⟩, ⟨"user", "hey"⟩] :=
  ⟨⟨rfl, rfl⟩,
   (C7_messages_translation
      (InputData.mk none (some [⟨some "system", none⟩, ⟨none, some "hey"⟩])
        none none none none none none none)
      [⟨some "system", none⟩, ⟨none, some "hey"⟩] rfl rfl).1⟩

/-- C8: a one-shot input with neither prompt nor messages returns the
descriptive error envelope as a value, and the relay is never invoked,
regardless of client initialization or upstream state. -/
theorem C8_missing_both_client_error (clientInit : Bool) (inp : InputData)
    (up : UpstreamResult) (hp : inp.prompt = none) (hm : inp.messages = none) :
    (handler clientInit inp up).output
      = HandlerOutput.errorEnvelope
          "Missing required field: either 'prompt' or 'messages' must be provided"
    ∧ (handler clientInit inp up).relayInvoked = false := by
  constructor <;> simp [handler, translate_messages, hp, hm]

/-- C8 witness: the empty input object yields the error envelope with the
relay untouched. -/
theorem C8_missing_both_client_error_witness :
    ((InputData.mk none none none none none none none none none).prompt = none
      ∧ (InputData.mk none none none none none none none none none).messages = none)
    ∧ (handler true (InputData.mk none none none none none none none none none)
        (UpstreamResult.ok 200 "ok")).output
        = HandlerOutput.errorEnvelope
            "Missing required field: either 'prompt' or 'messages' must be provided"
    ∧ (handler true (InputData.mk none none none none none none none none none)
        (UpstreamResult.ok 200 "ok")).relayInvoked = false :=
  ⟨⟨rfl, rfl⟩,
   (C8_missing_both_client_error true
      (InputData.mk none none none none none none none none none)
      (UpstreamResult.ok 200 "ok") rfl rfl).1,
   (C8_missing_both_client_error true
      (InputData.mk none none none none none none none none none)
      (UpstreamResult.ok 200 "ok") rfl rfl).2⟩

/-- C9 counterexample: the claim says a request whose messages list is empty
is rejected at the transport boundary; on the code the pydantic model
accepts the empty list (only presence of the field and of role/content per
entry is required), and the resulting request is relayed upstream: the
buffered route returns the upstream 200 body and the payload carries the
empty messages array. -/
theorem C9_counterexample_empty_messages_accepted :
    validate_request { messages := some [] } = Except.ok { messages := [] }
    ∧ chat_completions { messages := [] } (UpstreamResult.ok 200 "ok")
        = RouteResult.json "ok"
    ∧ (build_gpt_oss_request { messages := [] }).messages = [] :=
  ⟨rfl, rfl, rfl⟩

/-- C9 amended: transport-boundary validation requires only that the
messages field is present and that every entry carries both role and
content; any list satisfying that, the empty list included, is accepted and
the resulting request is relayed upstream carrying exactly that list. -/
theorem C9_amended_validation_no_lower_bound (ms : List RawMsg)
    (cms : List ChatMessage) (body : String)
    (h : validate_message_list ms = Except.ok cms) :
    validate_request { messages := some ms } = Except.ok { messages := cms }
    ∧ chat_completions { messages := cms } (UpstreamResult.ok 200 body)
        = RouteResult.json body
    ∧ (build_gpt_oss_request { messages := cms }).messages = cms := by
  refine ⟨?_, rfl, rfl⟩
  simp [validate_request, h]

/-- C9 witness: the empty list validates and relays. -/
theorem C9_amended_validation_no_lower_bound_witness :
    validate_message_list [] = Except.ok []
    ∧ validate_request { messages := some [] } = Except.ok { messages := [] }
    ∧ chat_completions { messages := [] } (UpstreamResult.ok 200 "body")
        = RouteResult.json "body" :=
  ⟨rfl,
   (C9_amended_validation_no_lower_bound [] [] "body" rfl).1,
   (C9_amended_validation_no_lower_bound [] [] "body" rfl).2.1⟩

/-- C10: when a one-shot input carries both a prompt and a messages list,
the prompt wins: the translation is the single user message holding the
prompt string, and the messages field is ignored entirely (replacing it
changes nothing). -/
theorem C10_prompt_precedence (inp : InputData) (p : String)
    (msgs : List RawMsg) (hp : inp.prompt = some p)
    (_hm : inp.messages = some msgs) :
    translate_messages inp = Except.ok [ChatMessage.mk "user" p]
    ∧ ∀ other, translate_messages { inp with messages := other }
        = translate_messages inp := by
  constructor
  · simp [translate_messages, hp]
  · intro other
    simp [translate_messages, hp]

/-- C10 witness: with prompt "Hello" and a nonempty messages list, the
translation is the single user message "Hello" and swapping the messages
list away changes nothing. -/
theorem C10_prompt_precedence_witness :
    ((InputData.mk (some "Hello") (some [⟨some "assistant", some "x"⟩])
        none none none none none none none).prompt = some "Hello"
      ∧ (InputData.mk (some "Hello") (some [⟨some "assistant", some "x"⟩])
          none none none none none none none).messages
          = some [⟨some "assistant", some "x"⟩])
    ∧ translate_messages
        (InputData.mk (some "Hello") (some [⟨some "assistant", some "x"⟩])
          none none none none none none none)
        = Except.ok [ChatMessage.mk "user" "Hello"] :=
  ⟨⟨rfl, rfl⟩,
   (C10_prompt_precedence
      (InputData.mk (some "Hello") (some [⟨some "assistant", some "x"⟩])
        none none none none none none none)
      "Hello" [⟨some "assistant", some "x"⟩] rfl rfl).1⟩

end GptOss
